import Mathlib

/-!
Verification development for the usdz-converter gateway (Bun/TypeScript).

The repository has three HTTP server files:
  * a local-disk variant (multipart file upload, result kept on disk),
  * a cloud variant `server/index.ts` (GCS download/convert/upload, no CORS,
    no temp-directory cleanup),
  * a cloud variant with CORS headers and a `finally` cleanup block.

All three share a `convertFile` helper that invokes the external
`usd_from_gltf` binary.  The definitions below are a shallow embedding of
that code: JavaScript strings become `String` (treated as lists of
characters), the Node `path.parse` function and the first-occurrence
semantics of `String.prototype.replace` are modelled explicitly, and the
effectful parts (subprocess, filesystem, Google Cloud Storage) are oracles
supplied as explicit environments.
-/

namespace UsdzConverter

/-- JavaScript `String.prototype.replace` with a string pattern replaces the
first occurrence of the pattern; with an empty pattern it prepends the
replacement. -/
def replaceFirst (s pat rep : List Char) : List Char :=
  match s with
  | [] => if pat = [] then rep else []
  | c :: cs =>
    if pat.isPrefixOf (c :: cs) then rep ++ (c :: cs).drop pat.length
    else c :: replaceFirst cs pat rep

/-- String wrapper for `replaceFirst`. -/
def strReplaceFirst (s pat rep : String) : String :=
  ⟨replaceFirst s.data pat.data rep.data⟩

/-- Number of start positions in `s` at which `pat` occurs. -/
def countOcc (pat : List Char) : List Char → Nat
  | [] => 0
  | c :: cs => (if pat.isPrefixOf (c :: cs) then 1 else 0) + countOcc pat cs

/-- Kernel-reducible model of `endsWith` on JavaScript strings. -/
def strEndsWith (s suf : String) : Bool :=
  suf.data.isSuffixOf s.data

/-- Kernel-reducible model of `startsWith` on JavaScript strings. -/
def strStartsWith (s pre : String) : Bool :=
  pre.data.isPrefixOf s.data

/-- Result of Node `path.parse` (the fields the code reads). -/
structure ParsedPath where
  dir : String
  base : String
  name : String
  ext : String
  deriving Repr, DecidableEq

/-- Split a POSIX path at its last slash: returns (dir, base) as Node
`path.parse` computes them.  A path with no slash has dir `""`. -/
def splitLastSlash (l : List Char) : List Char × List Char :=
  let rev := l.reverse
  let p := rev.span (fun c => c ≠ '/')
  match p.2 with
  | [] => ([], p.1.reverse)
  | _ :: d => (if d = [] then ['/'] else d.reverse, p.1.reverse)

/-- Split a basename into (name, ext) as Node `path.parse` does: the
extension starts at the last dot, except that a dot in the first position
(dotfile) or the basename ".." yields an empty extension. -/
def splitExt (base : List Char) : List Char × List Char :=
  if base = ['.', '.'] then (base, []) else
  let rev := base.reverse
  let p := rev.span (fun c => c ≠ '.')
  match p.2 with
  | [] => (base, [])
  | _ :: rest =>
    if rest = [] then (base, [])
    else (rest.reverse, (p.1 ++ ['.']).reverse)

/-- Model of Node `path.parse` for POSIX paths. -/
def pathParse (p : String) : ParsedPath :=
  let s := splitLastSlash p.data
  let e := splitExt s.2
  { dir := ⟨s.1⟩, base := ⟨s.2⟩, name := ⟨e.1⟩, ext := ⟨e.2⟩ }

/-- A JavaScript promise value: an object, hence always truthy, regardless
of the boolean it will resolve to.  `Bun.file(...).exists()` returns such a
promise. -/
structure JSPromise (α : Type) where
  resolvesTo : α
  deriving Repr, DecidableEq

/-- JavaScript truthiness of a promise object: every object is truthy. -/
def jsTruthy {α : Type} (_ : JSPromise α) : Bool := true

/-- Environment seen by `convertFile`: what the spawned converter leaves on
disk and on standard error. -/
structure ConvEnv where
  /-- Whether a file exists at the given path after the subprocess ran. -/
  fileExistsAfter : String → Bool
  /-- Captured standard error of the subprocess. -/
  stderrOut : String

/-- Observable outcome of one `convertFile` call: the argument vector passed
to `Bun.spawnSync` and the returned name or thrown error. -/
structure ConvertOutcome where
  spawnArgs : List String
  result : Except String String
  deriving Repr

/-- The output path `convertFile` derives: `filepath.replace(ext, ".usdz")`,
which substitutes the first occurrence of the extension substring. -/
def convertOutputPath (filepath : String) : String :=
  strReplaceFirst filepath (pathParse filepath).ext ".usdz"

/-- Shallow embedding of `convertFile` (identical in all three server
files).  It parses the path, derives the output path with
`filepath.replace(ext, ".usdz")`, spawns `usd_from_gltf` with
`(inputPath, outputPath)`, and then evaluates
`if (!outputFile.exists()) throw ...`.  Because `exists()` returns a
promise object, which is truthy, the negation is always `false` and the
throw is unreachable; the function returns `name + ".usdz"`. -/
def convertFile (env : ConvEnv) (filepath : String) : ConvertOutcome :=
  let parsed := pathParse filepath
  let output := strReplaceFirst filepath parsed.ext ".usdz"
  let args := ["usd_from_gltf", filepath, output]
  let outputFileExists : JSPromise Bool :=
    ⟨env.fileExistsAfter output⟩
  if !(jsTruthy outputFileExists) then
    { spawnArgs := args, result := .error "Error: Failed to create USDZ file" }
  else
    { spawnArgs := args, result := .ok ((pathParse filepath).name ++ ".usdz") }

/-- Output path prescribed by the specification text: the input path with
its trailing extension substituted by `.usdz`. -/
def specOutputPath (filepath : String) : String :=
  ⟨(filepath.data.take (filepath.data.length - (pathParse filepath).ext.data.length))
    ++ ".usdz".data⟩

/-- Body of an HTTP response: a JSON object with string-valued fields
(`Response.json`), or plain text (`new Response("...")`), or empty. -/
inductive RespBody where
  | json (fields : List (String × String))
  | text (s : String)
  | empty
  deriving Repr, DecidableEq

/-- An HTTP response as the handlers build it: status, headers passed to the
`Response` constructor, and body. -/
structure HttpResponse where
  status : Nat
  headers : List (String × String)
  body : RespBody
  deriving Repr, DecidableEq

/-- Value returned by `formdata.get(...)`: `null` when the field is absent,
a string for a text part, or a `File` (carrying its name) for a file part. -/
inductive FormValue where
  | missing
  | str (s : String)
  | file (name : String)
  deriving Repr, DecidableEq

/-- The local-disk variant's files root (a hard-coded constant). -/
def localFilesFolder : String := "/usr/app/gltf2usdz/files"

/-- Outcome of one local-variant `/api/convert` request: the response and
whether the converter subprocess was spawned. -/
structure LocalOutcome where
  response : HttpResponse
  spawned : Bool
  deriving Repr

/-- The local variant's check `!file || !(file instanceof File) ||
!(file.name.endsWith(".gltf") || file.name.endsWith(".glb"))`: `null` and
the empty string are falsy, a string is not an instance of `File`. -/
def localUploadInvalid : FormValue → Bool
  | .missing => true
  | .str _ => true
  | .file nm => !(strEndsWith nm ".gltf" || strEndsWith nm ".glb")

/-- Build an `HttpResponse`. -/
def resp (st : Nat) (hs : List (String × String)) (b : RespBody) : HttpResponse :=
  ⟨st, hs, b⟩

/-- JSON error body `{message}`. -/
def msgBody (m : String) : RespBody := .json [("message", m)]

/-- Shallow embedding of the local variant's `/api/convert` branch.  `id` is
the value `crypto.randomUUID()` produced.  Accessing `file.name` on a
missing field throws a `TypeError` (caught by the handler's `catch`, which
responds 500 with `String(error)`); the validation failure throws an
`Error`, likewise caught and turned into a 500. -/
def handleConvertLocal (env : ConvEnv) (id : String) (fv : FormValue) :
    LocalOutcome :=
  match fv with
  | .missing =>
    ⟨resp 500 [] (msgBody "TypeError: null is not an object (evaluating \x27file.name\x27)"), false⟩
  | _ =>
    if localUploadInvalid fv then
      ⟨resp 500 [] (msgBody "Error: You must upload a glb/gltf file."), false⟩
    else
      match fv with
      | .file nm =>
        let filename := localFilesFolder ++ "/" ++ id ++ "/" ++ nm
        let out := convertFile env filename
        match out.result with
        | .ok name => ⟨resp 200 [] (.json [("id", id), ("name", name)]), true⟩
        | .error e => ⟨resp 500 [] (msgBody e), true⟩
      | _ =>
        ⟨resp 500 [] (msgBody "Error: You must upload a glb/gltf file."), false⟩

/-- Environment of the cloud variants: whether the `Storage` client was
initialized, the `GCS_BUCKET` value, and oracles for the outcomes of the
GCS download, the converter subprocess, the GCS upload, and signed-URL
generation.  Errors are carried as their `String(err)` rendering. -/
structure CloudEnv where
  storageInit : Bool
  bucket : Option String
  downloadResult : String → String → Except String Unit
  conv : ConvEnv
  uploadResult : String → String → Except String Unit
  signResult : String → Except String String
  allowedOrigin : String

/-- The `expires` option `getSignedUrl` passes to the SDK:
`Date.now() + 60 * 60 * 1000`. -/
def getSignedUrlExpires (now : Nat) : Nat :=
  now + 60 * 60 * 1000

/-- Shallow embedding of `downloadFromGCS`: throws when the storage client
was not initialized, otherwise defers to the backend oracle. -/
def downloadFromGCS (env : CloudEnv) (objectName destPath : String) :
    Except String Unit :=
  if !env.storageInit then .error "Error: GCS client not initialized"
  else env.downloadResult objectName destPath

/-- Shallow embedding of `uploadToGCS`: throws when the storage client was
not initialized, otherwise defers to the backend oracle. -/
def uploadToGCS (env : CloudEnv) (localPath destObjectName : String) :
    Except String Unit :=
  if !env.storageInit then .error "Error: GCS client not initialized"
  else env.uploadResult localPath destObjectName

/-- Shallow embedding of `getSignedUrl`: throws when the storage client was
not initialized, otherwise asks the backend for a read URL with
`expires = Date.now() + 60 * 60 * 1000`. -/
def getSignedUrl (env : CloudEnv) (objectName : String) (now : Nat) :
    Except String (String × Nat) :=
  if !env.storageInit then .error "Error: GCS client not initialized"
  else match env.signResult objectName with
    | .error e => .error e
    | .ok url => .ok (url, getSignedUrlExpires now)

/-- Outcome of one cloud-variant `/api/convert` request: the response, the
directories the handler created under the files root, the directory the
`finally` block removed (if any), and whether the subprocess was spawned. -/
structure CloudOutcome where
  response : HttpResponse
  dirsCreated : List String
  dirRemoved : Option String
  spawned : Bool
  deriving Repr

/-- The cloud handlers' validation of the `filename` form field:
`!filenameField || typeof filenameField !== "string"` rejects a missing
field, a `File` value, and the (falsy) empty string. -/
def validFilenameField : FormValue → Option String
  | .str s => if s = "" then none else some s
  | _ => none

/-- The `CORS_HEADERS` constant of the CORS-enabled cloud variant. -/
def corsHeaders (origin : String) : List (String × String) :=
  [("Access-Control-Allow-Origin", origin),
   ("Access-Control-Allow-Methods", "POST, OPTIONS"),
   ("Access-Control-Allow-Headers", "Content-Type, Accept"),
   ("Access-Control-Max-Age", "600")]

/-- Shallow embedding of the `/api/convert` branch of the CORS-enabled
cloud variant.  `id` is the `crypto.randomUUID()` value, `form` is the
result of `await req.formData()` (which throws on a malformed body), `now`
is `Date.now()` at signing time.  `dir` is assigned before `mkdir`, so the
`finally` block removes it on every path reached after the assignment. -/
def handleConvertCloudCors (env : CloudEnv) (filesFolder id method : String)
    (form : Except String FormValue) (now : Nat) : CloudOutcome :=
  let cors := corsHeaders env.allowedOrigin
  if method ≠ "POST" then
    ⟨resp 405 cors (msgBody "Method not allowed"), [], none, false⟩
  else match form with
  | .error e => ⟨resp 500 cors (msgBody e), [], none, false⟩
  | .ok fv =>
    match validFilenameField fv with
    | none =>
      ⟨resp 400 cors (msgBody "You must provide a \x27filename\x27 form field pointing to the object in GCS"), [], none, false⟩
    | some filenameField =>
      if !env.storageInit || env.bucket = none then
        ⟨resp 500 cors (msgBody "GCS is not configured on this server"), [], none, false⟩
      else
        let originalName :=
          if strStartsWith filenameField "models/" then filenameField
          else "models/" ++ filenameField
        let dir := filesFolder ++ "/" ++ id
        let parsed := pathParse originalName
        let objectDir := parsed.dir
        let objectBase := parsed.base
        let localObjectDir := dir ++ "/" ++ objectDir
        let destPath := localObjectDir ++ "/" ++ objectBase
        let created := [dir, localObjectDir]
        match downloadFromGCS env originalName destPath with
        | .error e => ⟨resp 500 cors (msgBody e), created, some dir, false⟩
        | .ok _ =>
          let convertedName := parsed.name ++ ".usdz"
          let co := convertFile env.conv destPath
          match co.result with
          | .error e => ⟨resp 500 cors (msgBody e), created, some dir, true⟩
          | .ok name =>
            let outputPath := localObjectDir ++ "/" ++ convertedName
            let destObjectName := objectDir ++ "/" ++ convertedName
            match uploadToGCS env outputPath destObjectName with
            | .error e => ⟨resp 500 cors (msgBody e), created, some dir, true⟩
            | .ok _ =>
              match getSignedUrl env destObjectName now with
              | .error e => ⟨resp 500 cors (msgBody e), created, some dir, true⟩
              | .ok u =>
                ⟨resp 200 cors (.json [("id", id), ("name", name), ("uploadedUrl", u.1), ("objectPath", destObjectName)]), created, some dir, true⟩

/-- Shallow embedding of the whole `fetch` dispatcher of the CORS-enabled
cloud variant: CORS preflight, health check, conversion endpoint, and the
not-found fallback. -/
def fetchCloudCors (env : CloudEnv) (filesFolder : String)
    (pathname method : String) (form : Except String FormValue)
    (id : String) (now : Nat) : CloudOutcome :=
  let cors := corsHeaders env.allowedOrigin
  if method = "OPTIONS" then
    ⟨resp 204 cors .empty, [], none, false⟩
  else if pathname = "/healthz" then
    ⟨resp 200 cors (.text "ok"), [], none, false⟩
  else if pathname = "/api/convert" then
    handleConvertCloudCors env filesFolder id method form now
  else
    ⟨resp 404 cors (.text "Not Found"), [], none, false⟩

/-- Shallow embedding of the `/api/convert` branch of `server/index.ts`
(the cloud variant without CORS headers and without a cleanup block): it
has no method check, creates only the per-request directory, stores the
result under `models/<id>/<name>`, responds `{id, name, uploadedUrl}`, and
never removes the directory it created. -/
def handleConvertCloudV1 (env : CloudEnv) (filesFolder id : String)
    (form : Except String FormValue) (now : Nat) : CloudOutcome :=
  match form with
  | .error e => ⟨resp 500 [] (msgBody e), [], none, false⟩
  | .ok fv =>
    match validFilenameField fv with
    | none =>
      ⟨resp 400 [] (msgBody "You must provide a \x27filename\x27 form field pointing to the object in GCS"), [], none, false⟩
    | some filenameField =>
      if !env.storageInit || env.bucket = none then
        ⟨resp 500 [] (msgBody "GCS is not configured on this server"), [], none, false⟩
      else
        let originalName :=
          if strStartsWith filenameField "models/" then filenameField
          else "models/" ++ filenameField
        let dir := filesFolder ++ "/" ++ id
        let destPath := dir ++ "/" ++ originalName
        let created := [dir]
        match downloadFromGCS env originalName destPath with
        | .error e => ⟨resp 500 [] (msgBody e), created, none, false⟩
        | .ok _ =>
          let co := convertFile env.conv destPath
          match co.result with
          | .error e => ⟨resp 500 [] (msgBody e), created, none, true⟩
          | .ok name =>
            let outputPath := dir ++ "/" ++ name
            let destObjectName := "models/" ++ id ++ "/" ++ name
            match uploadToGCS env outputPath destObjectName with
            | .error e => ⟨resp 500 [] (msgBody e), created, none, true⟩
            | .ok _ =>
              match getSignedUrl env destObjectName now with
              | .error e => ⟨resp 500 [] (msgBody e), created, none, true⟩
              | .ok u =>
                ⟨resp 200 [] (.json [("id", id), ("name", name), ("uploadedUrl", u.1)]), created, none, true⟩

/-- Fields present in a JSON response body. -/
def bodyLookup (b : RespBody) (k : String) : Option String :=
  match b with
  | .json fields => (fields.find? (fun p => p.1 = k)).map (·.2)
  | _ => none

/-- A sample converter environment: the subprocess writes the output file. -/
def sampleConvEnv : ConvEnv := ⟨fun _ => true, ""⟩

/-- A converter environment in which the subprocess produces no file at
all. -/
def noOutputConvEnv : ConvEnv := ⟨fun _ => false, ""⟩

/-- A sample cloud environment in which storage is configured and every
backend operation succeeds. -/
def sampleCloudEnv : CloudEnv :=
  ⟨true, some "bucket-a", fun _ _ => .ok (), sampleConvEnv,
   fun _ _ => .ok (), fun _ => .ok "https://signed.example/u", "https://app.example"⟩

/-- A cloud environment in which no `GCS_BUCKET` was configured, so the
storage client was never initialized. -/
def noGcsCloudEnv : CloudEnv :=
  ⟨false, none, fun _ _ => .ok (), sampleConvEnv,
   fun _ _ => .ok (), fun _ => .ok "u", "*"⟩

theorem strEndsWith_append (s t : String) : strEndsWith (s ++ t) t = true := by
  rw [strEndsWith, String.data_append, List.isSuffixOf_iff_suffix]
  exact List.suffix_append _ _

theorem countOcc_append_pos (pat a : List Char) (hp : pat ≠ []) :
    1 ≤ countOcc pat (a ++ pat) := by
  induction a with
  | nil =>
    match pat, hp with
    | c :: cs, _ =>
      have hpre : (c :: cs).isPrefixOf (c :: cs) = true :=
        List.isPrefixOf_iff_prefix.mpr (List.prefix_refl _)
      simp [countOcc, hpre]
  | cons c a ih =>
    have : countOcc pat ((c :: a) ++ pat)
        = (if pat.isPrefixOf (c :: (a ++ pat)) then 1 else 0) + countOcc pat (a ++ pat) := rfl
    rw [this]
    omega

theorem replaceFirst_append_of_unique (pat rep : List Char) (hp : pat ≠ []) :
    ∀ a : List Char, countOcc pat (a ++ pat) = 1 →
      replaceFirst (a ++ pat) pat rep = a ++ rep := by
  intro a
  induction a with
  | nil =>
    intro _
    match pat, hp with
    | c :: cs, _ =>
      have hpre : (c :: cs).isPrefixOf (c :: cs) = true :=
        List.isPrefixOf_iff_prefix.mpr (List.prefix_refl _)
      simp [replaceFirst, hpre, List.drop_length]
  | cons c a ih =>
    intro h1
    by_cases hpre : pat.isPrefixOf (c :: (a ++ pat)) = true
    · exfalso
      have h2 : 1 ≤ countOcc pat (a ++ pat) := countOcc_append_pos pat a hp
      have : countOcc pat ((c :: a) ++ pat)
          = (if pat.isPrefixOf (c :: (a ++ pat)) then 1 else 0) + countOcc pat (a ++ pat) := rfl
      rw [this, if_pos hpre] at h1
      omega
    · have h1' : countOcc pat (a ++ pat) = 1 := by
        have : countOcc pat ((c :: a) ++ pat)
            = (if pat.isPrefixOf (c :: (a ++ pat)) then 1 else 0) + countOcc pat (a ++ pat) := rfl
        rw [this, if_neg hpre] at h1
        omega
      have hstep : replaceFirst ((c :: a) ++ pat) pat rep
          = c :: replaceFirst (a ++ pat) pat rep := by
        show replaceFirst (c :: (a ++ pat)) pat rep = _
        rw [replaceFirst, if_neg hpre]
      rw [hstep, ih h1']
      rfl

/-- C1: the specification says that when the converter subprocess produces
no file at the derived output path, `convertFile` throws and the handler
returns an error.  The code contradicts this intent: the guard
`if (!outputFile.exists())` negates a promise object (the call is not
awaited), which is always truthy, so the guard is always false.  With a
converter that produces no file at all, `convertFile` still returns
`chair.usdz` and the handler answers 200 with a success body. -/
theorem convertFile_missing_output_still_succeeds :
    noOutputConvEnv.fileExistsAfter
        (convertOutputPath "/usr/app/gltf2usdz/files/k/chair.glb") = false
    ∧ (convertFile noOutputConvEnv "/usr/app/gltf2usdz/files/k/chair.glb").result
        = Except.ok "chair.usdz"
    ∧ (handleConvertLocal noOutputConvEnv "k" (.file "chair.glb")).response.status = 200
    ∧ bodyLookup (handleConvertLocal noOutputConvEnv "k"
        (.file "chair.glb")).response.body "name" = some "chair.usdz" :=
  ⟨rfl, rfl, rfl, rfl⟩

/-- C2 counterexample: posting a file named `chair.txt` to the local
variant's `/api/convert` yields status 500 — the extension-validation
failure is thrown and caught by the generic handler — not a 400-class
status, although the subprocess is indeed never spawned. -/
theorem convert_local_bad_extension_cex :
    (handleConvertLocal sampleConvEnv "id0" (.file "chair.txt")).response.status = 500
    ∧ ¬(400 ≤ (handleConvertLocal sampleConvEnv "id0" (.file "chair.txt")).response.status
        ∧ (handleConvertLocal sampleConvEnv "id0" (.file "chair.txt")).response.status < 500)
    ∧ (handleConvertLocal sampleConvEnv "id0" (.file "chair.txt")).spawned = false :=
  ⟨rfl, by decide, rfl⟩

/-- C2 amended: for every multipart upload whose file name ends in neither
`.gltf` nor `.glb`, the local variant's `/api/convert` handler responds
with HTTP 500 and the body
`{message: "Error: You must upload a glb/gltf file."}`, and the converter
subprocess is never spawned. -/
theorem convert_local_bad_extension_500_no_spawn (env : ConvEnv) (id nm : String)
    (h1 : strEndsWith nm ".gltf" = false) (h2 : strEndsWith nm ".glb" = false) :
    (handleConvertLocal env id (.file nm)).response.status = 500
    ∧ bodyLookup (handleConvertLocal env id (.file nm)).response.body "message"
        = some "Error: You must upload a glb/gltf file."
    ∧ (handleConvertLocal env id (.file nm)).spawned = false := by
  have hinv : localUploadInvalid (.file nm) = true := by
    simp [localUploadInvalid, h1, h2]
  have houtcome : handleConvertLocal env id (.file nm)
      = ⟨resp 500 [] (msgBody "Error: You must upload a glb/gltf file."), false⟩ := by
    simp [handleConvertLocal, hinv]
  rw [houtcome]
  exact ⟨rfl, rfl, rfl⟩

/-- C2 witness: the amended statement, instantiated at a concrete upload
named `model.txt`. -/
theorem convert_local_bad_extension_500_no_spawn_witness :
    (strEndsWith "model.txt" ".gltf" = false ∧ strEndsWith "model.txt" ".glb" = false)
    ∧ ((handleConvertLocal sampleConvEnv "id1" (.file "model.txt")).response.status = 500
      ∧ bodyLookup (handleConvertLocal sampleConvEnv "id1"
          (.file "model.txt")).response.body "message"
          = some "Error: You must upload a glb/gltf file."
      ∧ (handleConvertLocal sampleConvEnv "id1" (.file "model.txt")).spawned = false) :=
  ⟨⟨by decide, by decide⟩,
   convert_local_bad_extension_500_no_spawn sampleConvEnv "id1" "model.txt"
     (by decide) (by decide)⟩

/-- C4 counterexample: `convertFile` derives the output path with
`filepath.replace(ext, ".usdz")`, which substitutes the first occurrence of
the extension substring, not the trailing extension.  On the input path
`a.glb/b.glb` the converter is invoked with output path `a.usdz/b.glb`,
while substituting the trailing extension would give `a.glb/b.usdz`. -/
theorem convertFile_output_path_cex :
    (convertFile sampleConvEnv "a.glb/b.glb").spawnArgs
        = ["usd_from_gltf", "a.glb/b.glb", "a.usdz/b.glb"]
    ∧ specOutputPath "a.glb/b.glb" = "a.glb/b.usdz"
    ∧ convertOutputPath "a.glb/b.glb" ≠ specOutputPath "a.glb/b.glb" :=
  ⟨rfl, by decide, by decide⟩

/-- C4 amended: `convertFile` invokes the external converter synchronously
with positional arguments `(inputPath, outputPath)` where the output path
substitutes the first occurrence of the extension substring with `.usdz`;
whenever the extension is non-empty and occurs in the input path only as
its trailing extension, this coincides with replacing the trailing
extension by `.usdz`. -/
theorem convertFile_spawn_and_output (env : ConvEnv) (p : String) (a : List Char)
    (hsuf : p.data = a ++ (pathParse p).ext.data)
    (hext : (pathParse p).ext.data ≠ [])
    (huniq : countOcc (pathParse p).ext.data p.data = 1) :
    (convertFile env p).spawnArgs = ["usd_from_gltf", p, convertOutputPath p]
    ∧ convertOutputPath p = specOutputPath p := by
  refine ⟨rfl, ?_⟩
  have huniq' : countOcc (pathParse p).ext.data (a ++ (pathParse p).ext.data) = 1 := by
    rw [← hsuf]; exact huniq
  have hrep : replaceFirst p.data (pathParse p).ext.data ".usdz".data
      = a ++ ".usdz".data := by
    calc replaceFirst p.data (pathParse p).ext.data ".usdz".data
        = replaceFirst (a ++ (pathParse p).ext.data) (pathParse p).ext.data ".usdz".data := by
          rw [← hsuf]
      _ = a ++ ".usdz".data := replaceFirst_append_of_unique _ _ hext a huniq'
  have htake : p.data.take (p.data.length - (pathParse p).ext.data.length) = a := by
    rw [hsuf, List.length_append]
    have hl : a.length + (pathParse p).ext.data.length - (pathParse p).ext.data.length
        = a.length := by omega
    rw [hl, List.take_left]
  show strReplaceFirst p (pathParse p).ext ".usdz" = specOutputPath p
  unfold strReplaceFirst specOutputPath
  rw [hrep, htake]

/-- C4 witness: the amended statement instantiated at the path
`models/chair.glb`, whose extension `.glb` occurs only at the end. -/
theorem convertFile_spawn_and_output_witness :
    ("models/chair.glb".data
        = "models/chair".data ++ (pathParse "models/chair.glb").ext.data
      ∧ (pathParse "models/chair.glb").ext.data ≠ []
      ∧ countOcc (pathParse "models/chair.glb").ext.data "models/chair.glb".data = 1)
    ∧ ((convertFile sampleConvEnv "models/chair.glb").spawnArgs
        = ["usd_from_gltf", "models/chair.glb", convertOutputPath "models/chair.glb"]
      ∧ convertOutputPath "models/chair.glb" = specOutputPath "models/chair.glb") :=
  ⟨⟨by decide, by decide, by decide⟩,
   convertFile_spawn_and_output sampleConvEnv "models/chair.glb" "models/chair".data
     (by decide) (by decide) (by decide)⟩

/-- C7: for every upload whose file name ends in `.gltf` or `.glb`, the
local variant's `/api/convert` responds 200 with a JSON body whose `name`
field ends in `.usdz`. -/
theorem convert_local_valid_upload (env : ConvEnv) (id nm : String)
    (h : strEndsWith nm ".gltf" = true ∨ strEndsWith nm ".glb" = true) :
    (handleConvertLocal env id (.file nm)).response.status = 200
    ∧ ∃ s, bodyLookup (handleConvertLocal env id (.file nm)).response.body "name"
          = some s
        ∧ strEndsWith s ".usdz" = true := by
  have hinv : localUploadInvalid (.file nm) = false := by
    rcases h with h | h <;> simp [localUploadInvalid, h]
  have houtcome : handleConvertLocal env id (.file nm)
      = ⟨resp 200 [] (.json [("id", id),
          ("name", (pathParse (localFilesFolder ++ "/" ++ id ++ "/" ++ nm)).name
            ++ ".usdz")]), true⟩ := by
    simp [handleConvertLocal, hinv, convertFile, jsTruthy]
  rw [houtcome]
  exact ⟨rfl, ⟨_, rfl, strEndsWith_append _ _⟩⟩

/-- C7 witness: posting `chair.glb` yields a 200 response whose `name`
field is exactly `chair.usdz`. -/
theorem convert_local_valid_upload_witness :
    (strEndsWith "chair.glb" ".gltf" = true ∨ strEndsWith "chair.glb" ".glb" = true)
    ∧ ((handleConvertLocal sampleConvEnv "id2" (.file "chair.glb")).response.status = 200
      ∧ ∃ s, bodyLookup (handleConvertLocal sampleConvEnv "id2"
            (.file "chair.glb")).response.body "name" = some s
          ∧ strEndsWith s ".usdz" = true)
    ∧ bodyLookup (handleConvertLocal sampleConvEnv "id2"
        (.file "chair.glb")).response.body "name" = some "chair.usdz" :=
  ⟨Or.inr (by decide),
   convert_local_valid_upload sampleConvEnv "id2" "chair.glb" (Or.inr (by decide)),
   by decide⟩

/-- C8: every signed read URL the storage bridge issues carries an
expiration of exactly `Date.now() + 60 * 60 * 1000`, i.e. 3,600,000
milliseconds after issuance. -/
theorem getSignedUrl_one_hour (env : CloudEnv) (objectName : String) (now : Nat)
    (url : String) (e : Nat) (h : getSignedUrl env objectName now = .ok (url, e)) :
    e = now + 3600000 := by
  unfold getSignedUrl at h
  cases hs : env.storageInit with
  | false => rw [hs] at h; simp at h
  | true =>
    rw [hs] at h
    simp only [Bool.not_true, Bool.false_eq_true, if_false] at h
    cases hr : env.signResult objectName with
    | error e0 => rw [hr] at h; simp at h
    | ok u =>
      rw [hr] at h
      simp only [Except.ok.injEq, Prod.mk.injEq, getSignedUrlExpires] at h
      omega

/-- C8 witness: a signed URL issued at time 5 carries expiry 3600005. -/
theorem getSignedUrl_one_hour_witness :
    getSignedUrl sampleCloudEnv "models/chair.usdz" 5
        = .ok ("https://signed.example/u", 3600005)
    ∧ (3600005 : Nat) = 5 + 3600000 :=
  ⟨rfl, getSignedUrl_one_hour sampleCloudEnv "models/chair.usdz" 5
    "https://signed.example/u" 3600005 rfl⟩

/-- C3 counterexample: the cloud handler in `server/index.ts` creates the
per-request directory and has no cleanup block, so after a successful
request the directory still exists. -/
theorem cloud_v1_no_cleanup_cex :
    (handleConvertCloudV1 sampleCloudEnv "/tmp/gltf2usdz/files" "k"
        (.ok (.str "chair.glb")) 0).dirsCreated = ["/tmp/gltf2usdz/files/k"]
    ∧ (handleConvertCloudV1 sampleCloudEnv "/tmp/gltf2usdz/files" "k"
        (.ok (.str "chair.glb")) 0).dirRemoved = none
    ∧ (handleConvertCloudV1 sampleCloudEnv "/tmp/gltf2usdz/files" "k"
        (.ok (.str "chair.glb")) 0).response.status = 200 :=
  ⟨rfl, rfl, rfl⟩

/-- C3 amended: in the CORS-enabled cloud handler, every `/api/convert`
request that creates the per-request temporary directory has that
directory removed by the `finally` block, regardless of success or
failure. -/
theorem cloud_cors_cleanup (env : CloudEnv) (filesFolder id method : String)
    (form : Except String FormValue) (now : Nat)
    (h : (handleConvertCloudCors env filesFolder id method form now).dirsCreated ≠ []) :
    (handleConvertCloudCors env filesFolder id method form now).dirRemoved
        = some (filesFolder ++ "/" ++ id) := by
  revert h
  simp only [handleConvertCloudCors]
  repeat' split
  all_goals intro h
  all_goals first
    | rfl
    | exact absurd rfl h

/-- C3 witness: a concrete successful request through the CORS-enabled
handler creates the directory and the `finally` block removes it. -/
theorem cloud_cors_cleanup_witness :
    (handleConvertCloudCors sampleCloudEnv "/tmp/gltf2usdz/files" "k" "POST"
        (.ok (.str "chair.glb")) 0).dirsCreated ≠ []
    ∧ (handleConvertCloudCors sampleCloudEnv "/tmp/gltf2usdz/files" "k" "POST"
        (.ok (.str "chair.glb")) 0).dirRemoved = some "/tmp/gltf2usdz/files/k" :=
  ⟨by decide, cloud_cors_cleanup sampleCloudEnv "/tmp/gltf2usdz/files" "k" "POST"
    (.ok (.str "chair.glb")) 0 (by decide)⟩

/-- C5 counterexample: a successful `/api/convert` response of the cloud
handler in `server/index.ts` contains `id`, `name` and `uploadedUrl` but
no `objectPath` field. -/
theorem cloud_v1_success_missing_objectPath_cex :
    (handleConvertCloudV1 sampleCloudEnv "/tmp/gltf2usdz/files" "k"
        (.ok (.str "chair.glb")) 0).response.status = 200
    ∧ bodyLookup (handleConvertCloudV1 sampleCloudEnv "/tmp/gltf2usdz/files" "k"
        (.ok (.str "chair.glb")) 0).response.body "id" = some "k"
    ∧ bodyLookup (handleConvertCloudV1 sampleCloudEnv "/tmp/gltf2usdz/files" "k"
        (.ok (.str "chair.glb")) 0).response.body "name" = some "chair.usdz"
    ∧ bodyLookup (handleConvertCloudV1 sampleCloudEnv "/tmp/gltf2usdz/files" "k"
        (.ok (.str "chair.glb")) 0).response.body "uploadedUrl"
        = some "https://signed.example/u"
    ∧ bodyLookup (handleConvertCloudV1 sampleCloudEnv "/tmp/gltf2usdz/files" "k"
        (.ok (.str "chair.glb")) 0).response.body "objectPath" = none :=
  ⟨rfl, rfl, rfl, rfl, rfl⟩

theorem cloud_cors_body_characterization (env : CloudEnv)
    (filesFolder id method : String) (form : Except String FormValue) (now : Nat) :
    (handleConvertCloudCors env filesFolder id method form now).response.status ≠ 200
    ∨ ∃ n u op,
        (handleConvertCloudCors env filesFolder id method form now).response.body
          = .json [("id", id), ("name", n ++ ".usdz"), ("uploadedUrl", u),
                   ("objectPath", op)] := by
  simp only [handleConvertCloudCors, convertFile, jsTruthy, Bool.not_true,
    Bool.false_eq_true, if_false]
  repeat' split
  all_goals
    first
      | exact Or.inr ⟨_, _, _, rfl⟩
      | exact Or.inl (fun hc => absurd (show (405 : Nat) = 200 from hc) (by decide))
      | exact Or.inl (fun hc => absurd (show (400 : Nat) = 200 from hc) (by decide))
      | exact Or.inl (fun hc => absurd (show (500 : Nat) = 200 from hc) (by decide))

/-- C5 amended: in the CORS-enabled cloud variant every successful
`/api/convert` response body is JSON containing the request identifier,
a converted-file name ending in `.usdz`, a signed download URL and the
object's storage path; the earlier cloud handler in `server/index.ts`
omits the storage path from its success body. -/
theorem cloud_cors_success_body (env : CloudEnv)
    (filesFolder id method : String) (form : Except String FormValue) (now : Nat)
    (h : (handleConvertCloudCors env filesFolder id method form now).response.status
        = 200) :
    ∃ n u op,
      bodyLookup (handleConvertCloudCors env filesFolder id method form
          now).response.body "id" = some id
      ∧ bodyLookup (handleConvertCloudCors env filesFolder id method form
          now).response.body "name" = some (n ++ ".usdz")
      ∧ strEndsWith (n ++ ".usdz") ".usdz" = true
      ∧ bodyLookup (handleConvertCloudCors env filesFolder id method form
          now).response.body "uploadedUrl" = some u
      ∧ bodyLookup (handleConvertCloudCors env filesFolder id method form
          now).response.body "objectPath" = some op := by
  rcases cloud_cors_body_characterization env filesFolder id method form now with
    hne | ⟨n, u, op, hbody⟩
  · exact absurd h hne
  · rw [hbody]
    exact ⟨n, u, op, rfl, rfl, strEndsWith_append _ _, rfl, rfl⟩

/-- C5 witness: a concrete successful request through the CORS-enabled
handler, whose body carries all four fields, with
`objectPath = "models/chair.usdz"`. -/
theorem cloud_cors_success_body_witness :
    (handleConvertCloudCors sampleCloudEnv "/tmp/gltf2usdz/files" "k" "POST"
        (.ok (.str "chair.glb")) 0).response.status = 200
    ∧ (∃ n u op,
        bodyLookup (handleConvertCloudCors sampleCloudEnv "/tmp/gltf2usdz/files"
            "k" "POST" (.ok (.str "chair.glb")) 0).response.body "id" = some "k"
        ∧ bodyLookup (handleConvertCloudCors sampleCloudEnv "/tmp/gltf2usdz/files"
            "k" "POST" (.ok (.str "chair.glb")) 0).response.body "name"
            = some (n ++ ".usdz")
        ∧ strEndsWith (n ++ ".usdz") ".usdz" = true
        ∧ bodyLookup (handleConvertCloudCors sampleCloudEnv "/tmp/gltf2usdz/files"
            "k" "POST" (.ok (.str "chair.glb")) 0).response.body "uploadedUrl"
            = some u
        ∧ bodyLookup (handleConvertCloudCors sampleCloudEnv "/tmp/gltf2usdz/files"
            "k" "POST" (.ok (.str "chair.glb")) 0).response.body "objectPath"
            = some op)
    ∧ bodyLookup (handleConvertCloudCors sampleCloudEnv "/tmp/gltf2usdz/files"
        "k" "POST" (.ok (.str "chair.glb")) 0).response.body "objectPath"
        = some "models/chair.usdz" :=
  ⟨rfl, cloud_cors_success_body sampleCloudEnv "/tmp/gltf2usdz/files" "k" "POST"
    (.ok (.str "chair.glb")) 0 rfl, by decide⟩

/-- C6: each storage-bridge operation throws
`Error: GCS client not initialized` when the storage client was not
initialized, and a POST `/api/convert` carrying a non-empty `filename`
field while storage is unconfigured is answered 500 with
`{message: "GCS is not configured on this server"}`. -/
theorem gcs_unconfigured_fails (env : CloudEnv) (hs : env.storageInit = false)
    (objectName destPath localPath destObj filesFolder id fn : String)
    (now : Nat) (hfn : fn ≠ "") :
    downloadFromGCS env objectName destPath
        = .error "Error: GCS client not initialized"
    ∧ uploadToGCS env localPath destObj
        = .error "Error: GCS client not initialized"
    ∧ getSignedUrl env objectName now
        = .error "Error: GCS client not initialized"
    ∧ (handleConvertCloudCors env filesFolder id "POST"
        (.ok (.str fn)) now).response.status = 500
    ∧ bodyLookup (handleConvertCloudCors env filesFolder id "POST"
        (.ok (.str fn)) now).response.body "message"
        = some "GCS is not configured on this server" := by
  have houtcome : handleConvertCloudCors env filesFolder id "POST"
      (.ok (.str fn)) now
      = ⟨resp 500 (corsHeaders env.allowedOrigin)
          (msgBody "GCS is not configured on this server"), [], none, false⟩ := by
    simp [handleConvertCloudCors, validFilenameField, hfn, hs]
  refine ⟨?_, ?_, ?_, ?_, ?_⟩
  · simp [downloadFromGCS, hs]
  · simp [uploadToGCS, hs]
  · simp [getSignedUrl, hs]
  · rw [houtcome]; rfl
  · rw [houtcome]; rfl

/-- C6 witness: the statement instantiated at a concrete unconfigured
environment and the spec's example request `filename=models/chair.glb`. -/
theorem gcs_unconfigured_fails_witness :
    (noGcsCloudEnv.storageInit = false ∧ ("models/chair.glb" : String) ≠ "")
    ∧ (downloadFromGCS noGcsCloudEnv "models/chair.glb" "/tmp/d"
        = .error "Error: GCS client not initialized"
      ∧ uploadToGCS noGcsCloudEnv "/tmp/u" "models/chair.usdz"
        = .error "Error: GCS client not initialized"
      ∧ getSignedUrl noGcsCloudEnv "models/chair.glb" 0
        = .error "Error: GCS client not initialized"
      ∧ (handleConvertCloudCors noGcsCloudEnv "/tmp/gltf2usdz/files" "k" "POST"
          (.ok (.str "models/chair.glb")) 0).response.status = 500
      ∧ bodyLookup (handleConvertCloudCors noGcsCloudEnv "/tmp/gltf2usdz/files"
          "k" "POST" (.ok (.str "models/chair.glb")) 0).response.body "message"
          = some "GCS is not configured on this server") :=
  ⟨⟨rfl, by decide⟩,
   gcs_unconfigured_fails noGcsCloudEnv rfl "models/chair.glb" "/tmp/d" "/tmp/u"
     "models/chair.usdz" "/tmp/gltf2usdz/files" "k" "models/chair.glb" 0 (by decide)⟩

theorem cloud_cors_handler_headers (env : CloudEnv)
    (filesFolder id method : String) (form : Except String FormValue) (now : Nat) :
    (handleConvertCloudCors env filesFolder id method form now).response.headers
      = corsHeaders env.allowedOrigin := by
  simp only [handleConvertCloudCors]
  repeat' split
  all_goals rfl

/-- C9: every response of the CORS-enabled cloud variant's `fetch`
dispatcher — preflight, health check, conversion success, every error and
the not-found fallback — carries exactly the `CORS_HEADERS`, including
`Access-Control-Allow-Origin` set to the configured allowed origin. -/
theorem fetch_cloud_all_responses_cors (env : CloudEnv)
    (filesFolder pathname method : String) (form : Except String FormValue)
    (id : String) (now : Nat) :
    (fetchCloudCors env filesFolder pathname method form id now).response.headers
        = corsHeaders env.allowedOrigin
    ∧ ("Access-Control-Allow-Origin", env.allowedOrigin)
        ∈ (fetchCloudCors env filesFolder pathname method form id
            now).response.headers := by
  have hh : (fetchCloudCors env filesFolder pathname method form id
      now).response.headers = corsHeaders env.allowedOrigin := by
    simp only [fetchCloudCors]
    repeat' split
    any_goals rfl
    exact cloud_cors_handler_headers env filesFolder id method form now
  refine ⟨hh, ?_⟩
  rw [hh]
  exact List.mem_cons_self _ _

/-- C10: every `/api/convert` request to the CORS-enabled cloud handler
that fails validation before the temporary directory is created — a
non-POST method, a missing or non-string or empty `filename` field, or
unconfigured storage — creates no directory under the files root and
takes no cleanup branch, leaving the local filesystem unchanged. -/
theorem cloud_cors_early_failure_no_fs_change (env : CloudEnv)
    (filesFolder id method : String) (form : Except String FormValue) (now : Nat)
    (h : method ≠ "POST"
      ∨ (∃ fv, form = Except.ok fv ∧ validFilenameField fv = none)
      ∨ env.storageInit = false ∨ env.bucket = none) :
    (handleConvertCloudCors env filesFolder id method form now).dirsCreated = []
    ∧ (handleConvertCloudCors env filesFolder id method form now).dirRemoved
        = none := by
  by_cases hm : method = "POST"
  · subst hm
    rcases h with hm' | ⟨fv, hfv, hnone⟩ | hs | hb
    · exact absurd rfl hm'
    · subst hfv
      simp [handleConvertCloudCors, hnone]
    · cases form with
      | error e => simp [handleConvertCloudCors]
      | ok fv =>
        cases hv : validFilenameField fv with
        | none => simp [handleConvertCloudCors, hv]
        | some s => simp [handleConvertCloudCors, hv, hs]
    · cases form with
      | error e => simp [handleConvertCloudCors]
      | ok fv =>
        cases hv : validFilenameField fv with
        | none => simp [handleConvertCloudCors, hv]
        | some s => simp [handleConvertCloudCors, hv, hb]
  · simp [handleConvertCloudCors, hm]

/-- C10 witness: a concrete GET request fails the method check and leaves
the filesystem untouched. -/
theorem cloud_cors_early_failure_no_fs_change_witness :
    (("GET" : String) ≠ "POST"
      ∨ (∃ fv, (Except.ok (FormValue.str "chair.glb") : Except String FormValue)
            = Except.ok fv ∧ validFilenameField fv = none)
      ∨ sampleCloudEnv.storageInit = false ∨ sampleCloudEnv.bucket = none)
    ∧ ((handleConvertCloudCors sampleCloudEnv "/tmp/gltf2usdz/files" "k" "GET"
        (.ok (.str "chair.glb")) 0).dirsCreated = []
      ∧ (handleConvertCloudCors sampleCloudEnv "/tmp/gltf2usdz/files" "k" "GET"
        (.ok (.str "chair.glb")) 0).dirRemoved = none) :=
  ⟨Or.inl (by decide),
   cloud_cors_early_failure_no_fs_change sampleCloudEnv "/tmp/gltf2usdz/files"
     "k" "GET" (.ok (.str "chair.glb")) 0 (Or.inl (by decide))⟩

end UsdzConverter
